import Mathlib

/-!
# Credential and one-time-passcode lifecycle of the authentication backend

A shallow embedding of `backend/controllers/authController.js`.

Every handler is an `async` function that reads the request body, talks to the
`userModel` collection, to `bcrypt`, to `jwt` and to the mail `transporter`, and
answers with `res.json` (and possibly `res.cookie`).  Here a handler is a pure
function

    Config → Store → body → Env → Outcome

* `Store` is the content of the `userModel` collection;
* `Config` holds the collaborators whose code is outside the controller
  (`bcrypt`, `jwt.sign`, the process environment, the mail templates);
* `Env` holds what the handler reads from the outside world during one request:
  `Date.now()`, `Math.random()`, the salt drawn by `bcrypt.hash`, and whether
  `transporter.sendMail` throws;
* `Outcome` is the collection after the request, the JSON answer with the cookie
  that was set, and the mail handed to the transporter.

Conventions of the embedding.

* Body fields are `Option String`: `none` is an absent field.  The JavaScript test
  `!x` holds of an absent field and of the empty string.
* Timestamps (`Date.now()` and the two `...ExpireAt` fields) are integers of
  milliseconds.
* `Math.random()` is a rational number; `100000 + r * 900000` is computed exactly
  (the rounding of IEEE doubles is not modelled).
* The collection itself, `bcrypt` and `jwt.sign` do not throw; the only collaborator
  whose failure is modelled is `transporter.sendMail`.
-/

namespace AuthController

/-! ## Data model -/

/-- Identifier of a document (`_id`).  A collection is kept as the list of its
documents in insertion order and a document is identified by its position: documents
are never deleted, so the position is stable and unique, as `_id` is. -/
abbrev ObjectId := Nat

/-- Modelled from the spec: the schema of `models/userModel.js` (section 3 of the
spec): name, email, password hash, the verified flag and the two passcode slots. -/
structure User where
  name : String
  email : String
  password : String
  verifyOtp : String
  verifyOtpExpireAt : Int
  isAccountVerified : Bool
  resetOtp : String
  resetOtpExpireAt : Int
  deriving DecidableEq, Repr

/-- Modelled from the spec: the defaults of `models/userModel.js` applied by
`new userModel({name, email, password})`: unverified, both passcode slots unset
(empty code, expiry 0). -/
def newUser (name email password : String) : User :=
  { name := name, email := email, password := password,
    verifyOtp := "", verifyOtpExpireAt := 0, isAccountVerified := false,
    resetOtp := "", resetOtpExpireAt := 0 }

/-- The `userModel` collection. -/
abbrev Store := List User

/-- Options of the session cookie, as passed to `res.cookie`. -/
structure Cookie where
  name : String
  value : String
  httpOnly : Bool
  secure : Bool
  sameSite : String
  maxAge : Nat
  deriving DecidableEq, Repr

/-- The `mailOptions` object handed to `transporter.sendMail`. -/
structure Mail where
  sender : String
  toAddr : String
  subject : String
  content : String
  deriving DecidableEq, Repr

/-- What the client receives: the object given to `res.json` and the cookie given to
`res.cookie`, if any. -/
structure Response where
  success : Bool
  message : Option String
  cookie : Option Cookie
  deriving DecidableEq, Repr

/-- Result of one request. -/
structure Outcome where
  store : Store
  res : Response
  mail : Option Mail
  deriving DecidableEq, Repr

/-- Collaborators of the controller. `hash pw rounds salt` is `bcrypt.hash(pw, rounds)`
when the library draws `salt`; `compare` is `bcrypt.compare`; `sign id now` is
`jwt.sign({id}, JWT_SECRET, {expiresIn: '7d'})` issued at time `now`;
`production` is `NODE_ENV === "production"`; `senderEmail` is `SENDER_EMAIL`;
`verifyHtml otp email` and `resetHtml otp email` are the two templates of
`config/emailTemplates.js` with the passcode and the address filled in. -/
structure Config where
  hash : String → Nat → Nat → String
  compare : String → String → Bool
  sign : ObjectId → Int → String
  production : Bool
  senderEmail : String
  verifyHtml : String → String → String
  resetHtml : String → String → String

/-- What one request reads from the outside world. `mailError = some m` means that
`transporter.sendMail` throws an error whose message is `m`. -/
structure Env where
  now : Int
  random : ℚ
  salt : Nat
  mailError : Option String

/-! ## Collection operations -/

/-- Scan for `findOne`: first document whose email is `email`, with its position. -/
def findOneFrom (email : String) : List User → Nat → Option (ObjectId × User)
  | [], _ => none
  | u :: us, i => if u.email = email then some (i, u) else findOneFrom email us (i + 1)

/-- The query `userModel.findOne({email})`. -/
def findOne (s : Store) (email : String) : Option (ObjectId × User) :=
  findOneFrom email s 0

/-- The query `userModel.findById(userId)`; an absent id finds nothing. -/
def findById (s : Store) : Option ObjectId → Option User
  | none => none
  | some id => s[id]?

/-- The call `user.save()` on a document loaded from position `id`. -/
def save (s : Store) (id : ObjectId) (u : User) : Store :=
  s.set id u

/-- The call `user.save()` on a document made by `new userModel(...)`. -/
def insert (s : Store) (u : User) : Store :=
  s ++ [u]

/-! ## Helpers shared by the handlers -/

/-- A body field that passes the test `!x` as false: present and not empty. -/
def present : Option String → Option String
  | none => none
  | some x => if x = "" then none else some x

/-- The call `res.json({success: false, message})` with no cookie set before. -/
def failure (message : String) : Response :=
  { success := false, message := some message, cookie := none }

/-- The session cookie of `register` and `login`. -/
def tokenCookie (cfg : Config) (token : String) : Cookie :=
  { name := "token", value := token, httpOnly := true,
    secure := cfg.production,
    sameSite := if cfg.production then "none" else "strict",
    maxAge := 7 * 24 * 60 * 60 * 1000 }

/-- The expression `String(Math.floor(100000 + Math.random() * 900000))`. -/
def genOtp (r : ℚ) : String :=
  toString ⌊100000 + r * 900000⌋

/-! ## Handlers -/

structure RegisterBody where
  email : Option String
  name : Option String
  password : Option String

/-- The handler `register`. -/
def register (cfg : Config) (s : Store) (body : RegisterBody) (env : Env) : Outcome :=
  match present body.name, present body.email, present body.password with
  | some name, some email, some password =>
    match findOne s email with
    | some _ => { store := s, res := failure "User already exsist.", mail := none }
    | none =>
      let hashedPassword := cfg.hash password 10 env.salt
      let user := newUser name email hashedPassword
      let s' := insert s user
      let token := cfg.sign s.length env.now
      let cookie := tokenCookie cfg token
      let mailOptions : Mail :=
        { sender := cfg.senderEmail, toAddr := email,
          subject := "Welcome to Muhammad Fahad Authentication App",
          content := "Welcome to my Authentication website. Your account has been created with email id: " ++ email ++ "." }
      match env.mailError with
      | some m =>
        { store := s', res := { success := false, message := some m, cookie := some cookie },
          mail := some mailOptions }
      | none =>
        { store := s', res := { success := true, message := none, cookie := some cookie },
          mail := some mailOptions }
  | _, _, _ => { store := s, res := failure "Missing Details.", mail := none }

structure LoginBody where
  email : Option String
  password : Option String

/-- The handler `login`. -/
def login (cfg : Config) (s : Store) (body : LoginBody) (env : Env) : Outcome :=
  match present body.email, present body.password with
  | some email, some password =>
    match findOne s email with
    | none => { store := s, res := failure "User did'nt exsist.", mail := none }
    | some (id, user) =>
      if cfg.compare password user.password = false then
        { store := s, res := failure "Invalid Email or Password.", mail := none }
      else
        let token := cfg.sign id env.now
        { store := s,
          res := { success := true, message := none, cookie := some (tokenCookie cfg token) },
          mail := none }
  | _, _ => { store := s, res := failure "Email and Password Both are required.", mail := none }

structure SendVerifyOtpBody where
  userId : Option ObjectId

/-- The handler `sendVerifyOtp`. Reading `user.isAccountVerified` of a user that was
not found throws a `TypeError`, which the handler catches and reports. -/
def sendVerifyOtp (cfg : Config) (s : Store) (body : SendVerifyOtpBody) (env : Env) : Outcome :=
  match body.userId, findById s body.userId with
  | some id, some user =>
    if user.isAccountVerified then
      { store := s, res := failure "Account Already Verified.", mail := none }
    else
      let otp := genOtp env.random
      let user' := { user with verifyOtp := otp,
                               verifyOtpExpireAt := env.now + 24 * 60 * 60 * 1000 }
      let s' := save s id user'
      let mailOptions : Mail :=
        { sender := cfg.senderEmail, toAddr := user'.email,
          subject := "Account Verification OTP.",
          content := cfg.verifyHtml otp user'.email }
      match env.mailError with
      | some m => { store := s', res := failure m, mail := some mailOptions }
      | none =>
        { store := s',
          res := { success := true, message := some "Verification OTP sent Successfully.",
                   cookie := none },
          mail := some mailOptions }
  | _, _ =>
    { store := s,
      res := failure "Cannot read properties of null (reading 'isAccountVerified')",
      mail := none }

structure VerifyEmailBody where
  userId : Option ObjectId
  otp : Option String

/-- The handler `verifyEmail`. -/
def verifyEmail (s : Store) (body : VerifyEmailBody) (env : Env) : Outcome :=
  match body.userId, present body.otp with
  | some id, some otp =>
    match findById s (some id) with
    | none => { store := s, res := failure "User not Found.", mail := none }
    | some user =>
      if user.verifyOtp = "" ∨ user.verifyOtp ≠ otp then
        { store := s, res := failure "Invalid OTP.", mail := none }
      else if user.verifyOtpExpireAt < env.now then
        { store := s, res := failure "OTP Expires.", mail := none }
      else
        let user' := { user with isAccountVerified := true, verifyOtp := "",
                                 verifyOtpExpireAt := 0 }
        { store := save s id user',
          res := { success := true, message := some "Email Verified successfully.",
                   cookie := none },
          mail := none }
  | _, _ => { store := s, res := failure "Missing Details.", mail := none }

structure SendResetOtpBody where
  email : Option String

/-- The handler `sendResetOtp`. -/
def sendResetOtp (cfg : Config) (s : Store) (body : SendResetOtpBody) (env : Env) : Outcome :=
  match present body.email with
  | none => { store := s, res := failure "Email is required.", mail := none }
  | some email =>
    match findOne s email with
    | none => { store := s, res := failure "User not Found.", mail := none }
    | some (id, user) =>
      let otp := genOtp env.random
      let user' := { user with resetOtp := otp,
                               resetOtpExpireAt := env.now + 15 * 60 * 1000 }
      let s' := save s id user'
      let mailOptions : Mail :=
        { sender := cfg.senderEmail, toAddr := user'.email,
          subject := "Password Reset OTP",
          content := cfg.resetHtml otp user'.email }
      match env.mailError with
      | some m => { store := s', res := failure m, mail := some mailOptions }
      | none =>
        { store := s',
          res := { success := true, message := some "OTP sent to your email.",
                   cookie := none },
          mail := some mailOptions }

structure ResetPasswordBody where
  email : Option String
  otp : Option String
  newPassword : Option String

/-- The handler `resetPassword`. -/
def resetPassword (cfg : Config) (s : Store) (body : ResetPasswordBody) (env : Env) : Outcome :=
  match present body.email, present body.otp, present body.newPassword with
  | some email, some otp, some newPassword =>
    match findOne s email with
    | none => { store := s, res := failure "User not Found.", mail := none }
    | some (id, user) =>
      if user.resetOtp = "" ∨ user.resetOtp ≠ otp then
        { store := s, res := failure "Invalid OTP.", mail := none }
      else if user.resetOtpExpireAt < env.now then
        { store := s, res := failure "OTP Expired.", mail := none }
      else
        let hashedPassword := cfg.hash newPassword 10 env.salt
        let user' := { user with password := hashedPassword, resetOtp := "",
                                 resetOtpExpireAt := 0 }
        { store := save s id user',
          res := { success := true,
                   message := some "Password has been Reset Successfully.",
                   cookie := none },
          mail := none }
  | _, _, _ =>
    { store := s, res := failure "Email, OTP, and New Password are required.", mail := none }

/-! ## Sequences of requests -/

/-- A request to one of the four passcode handlers, with what it reads from the
outside world. -/
inductive Action where
  | sendVerifyOtp (body : SendVerifyOtpBody) (env : Env)
  | verifyEmail (body : VerifyEmailBody) (env : Env)
  | sendResetOtp (body : SendResetOtpBody) (env : Env)
  | resetPassword (body : ResetPasswordBody) (env : Env)

/-- The outside world read by a request. -/
def Action.env : Action → Env
  | .sendVerifyOtp _ env => env
  | .verifyEmail _ env => env
  | .sendResetOtp _ env => env
  | .resetPassword _ env => env

/-- The collection after one request. -/
def step (cfg : Config) (s : Store) : Action → Store
  | .sendVerifyOtp body env => (sendVerifyOtp cfg s body env).store
  | .verifyEmail body env => (verifyEmail s body env).store
  | .sendResetOtp body env => (sendResetOtp cfg s body env).store
  | .resetPassword body env => (resetPassword cfg s body env).store

/-- The collection after a sequence of requests, handled one after the other. -/
def run (cfg : Config) (s : Store) (acts : List Action) : Store :=
  acts.foldl (step cfg) s

/-- The collection after a sequence of `register` requests. -/
def registerAll (cfg : Config) (s : Store) (reqs : List (RegisterBody × Env)) : Store :=
  reqs.foldl (fun acc q => (register cfg acc q.1 q.2).store) s

/-! ## Predicates used in the statements -/

/-- A string of exactly six decimal digits. -/
def SixDigits (code : String) : Prop :=
  code.length = 6 ∧ ∀ c ∈ code.data, c.isDigit = true

instance (code : String) : Decidable (SixDigits code) := by
  unfold SixDigits; infer_instance

/-- The clock is not negative and the random draw lies in `[0, 1)`, as `Date.now()`
and `Math.random()` guarantee. -/
def Env.valid (env : Env) : Prop :=
  0 ≤ env.now ∧ 0 ≤ env.random ∧ env.random < 1

/-- Both passcode slots of a user are unset. -/
def Fresh (u : User) : Prop :=
  u.verifyOtp = "" ∧ u.verifyOtpExpireAt = 0 ∧ u.resetOtp = "" ∧ u.resetOtpExpireAt = 0

/-- In each slot the code is empty exactly when the expiry is 0, and a code that is
not empty has six characters. -/
def SlotInv (u : User) : Prop :=
  (u.verifyOtp = "" ↔ u.verifyOtpExpireAt = 0) ∧
  (u.verifyOtp ≠ "" → u.verifyOtp.length = 6) ∧
  (u.resetOtp = "" ↔ u.resetOtpExpireAt = 0) ∧
  (u.resetOtp ≠ "" → u.resetOtp.length = 6)

/-- Each email identifies at most one user of the collection. -/
def UniqueEmails (s : Store) : Prop :=
  (s.map User.email).Nodup

/-- A stand-in for `bcrypt`, `jwt` and the templates on which the handlers can be
evaluated: the hash of a password is the password, a token is the decimal id. -/
def plainConfig : Config :=
  { hash := fun pw _ _ => pw,
    compare := fun pw h => pw == h,
    sign := fun id _ => toString id,
    production := false,
    senderEmail := "noreply@example.com",
    verifyHtml := fun otp email => otp ++ " " ++ email,
    resetHtml := fun otp email => otp ++ " " ++ email }

/-- A user used in the concrete evaluations: verification code 123456 and reset code
654321 pending, both expiring at 1000. -/
def sampleUser : User :=
  { name := "A", email := "a@x.com", password := "pw1",
    verifyOtp := "123456", verifyOtpExpireAt := 1000, isAccountVerified := false,
    resetOtp := "654321", resetOtpExpireAt := 1000 }

/-- An outside world with clock `now`, draw 1/2 and a working mail transport. -/
def envAt (now : Int) : Env :=
  { now := now, random := 1 / 2, salt := 0, mailError := none }

/-! ## Lemmas on the collection -/

theorem findOneFrom_spec (e : String) :
    ∀ (l : List User) (k i : Nat) (u : User), findOneFrom e l k = some (i, u) →
      k ≤ i ∧ l[i - k]? = some u ∧ u.email = e ∧
        ∀ j, j < i - k → ∀ v, l[j]? = some v → v.email ≠ e := by
  intro l
  induction l with
  | nil => intro k i u h; simp [findOneFrom] at h
  | cons a as ih =>
    intro k i u h
    unfold findOneFrom at h
    split at h
    · next hea =>
      simp only [Option.some.injEq, Prod.mk.injEq] at h
      obtain ⟨rfl, rfl⟩ := h
      simp [hea]
    · next hea =>
      obtain ⟨h1, h2, h3, h4⟩ := ih (k + 1) i u h
      have hik : i - k = (i - (k + 1)) + 1 := by omega
      refine ⟨by omega, ?_, h3, ?_⟩
      · rw [hik]; simpa using h2
      · intro j hj v hv
        cases j with
        | zero => simp at hv; subst hv; exact hea
        | succ j => exact h4 j (by omega) v (by simpa using hv)

theorem findOneFrom_eq_none (e : String) :
    ∀ (l : List User) (k : Nat), findOneFrom e l k = none ↔ ∀ u ∈ l, u.email ≠ e := by
  intro l
  induction l with
  | nil => intro k; simp [findOneFrom]
  | cons a as ih =>
    intro k
    unfold findOneFrom
    by_cases hea : a.email = e
    · simp [hea]
    · simp [hea, ih]

theorem findOneFrom_set (e : String) (u' : User) (hu' : u'.email = e) :
    ∀ (l : List User) (k i : Nat) (u : User), findOneFrom e l k = some (i, u) →
      findOneFrom e (l.set (i - k) u') k = some (i, u') := by
  intro l
  induction l with
  | nil => intro k i u h; simp [findOneFrom] at h
  | cons a as ih =>
    intro k i u h
    have hk := (findOneFrom_spec e _ _ _ _ h).1
    unfold findOneFrom at h
    split at h
    · next hea =>
      simp only [Option.some.injEq, Prod.mk.injEq] at h
      obtain ⟨rfl, rfl⟩ := h
      simp [findOneFrom, hu']
    · next hea =>
      have hk1 := (findOneFrom_spec e _ _ _ _ h).1
      have hik : i - k = (i - (k + 1)) + 1 := by omega
      rw [hik, List.set_cons_succ]
      unfold findOneFrom
      rw [if_neg hea]
      exact ih (k + 1) i u h

theorem findOneFrom_append (e : String) (x : User) :
    ∀ (l : List User) (k : Nat), findOneFrom e l k = none →
      findOneFrom e (l ++ [x]) k = if x.email = e then some (k + l.length, x) else none := by
  intro l
  induction l with
  | nil => intro k _; simp [findOneFrom]
  | cons a as ih =>
    intro k h
    unfold findOneFrom at h
    split at h
    · simp at h
    · next hea =>
      rw [List.cons_append]
      unfold findOneFrom
      rw [if_neg hea, ih (k + 1) h, List.length_cons]
      split
      · simp only [Option.some.injEq, Prod.mk.injEq, and_true]; omega
      · rfl

theorem findOne_spec {s : Store} {e : String} {i : Nat} {u : User}
    (h : findOne s e = some (i, u)) :
    s[i]? = some u ∧ u.email = e ∧ ∀ j, j < i → ∀ v, s[j]? = some v → v.email ≠ e := by
  have := findOneFrom_spec e s 0 i u h
  simpa using this.2

theorem findOne_eq_none {s : Store} {e : String} :
    findOne s e = none ↔ ∀ u ∈ s, u.email ≠ e :=
  findOneFrom_eq_none e s 0

theorem findOne_save {s : Store} {e : String} {i : Nat} {u u' : User}
    (h : findOne s e = some (i, u)) (hu' : u'.email = e) :
    findOne (save s i u') e = some (i, u') := by
  have := findOneFrom_set e u' hu' s 0 i u h
  simpa [findOne, save] using this

theorem findOne_insert {s : Store} {e : String} {x : User}
    (h : findOne s e = none) (hx : x.email = e) :
    findOne (insert s x) e = some (s.length, x) := by
  have := findOneFrom_append e x s 0 h
  simpa [findOne, insert, hx] using this

theorem getElem?_save_self {s : Store} {i : Nat} {u u' : User} (h : s[i]? = some u) :
    (save s i u')[i]? = some u' := by
  have hi : i < s.length := by
    by_contra hc
    rw [List.getElem?_eq_none (by omega)] at h
    simp at h
  simp [save, List.getElem?_set, hi]

theorem getElem?_save_ne {s : Store} {i j : Nat} {u' : User} (h : j ≠ i) :
    (save s i u')[j]? = s[j]? := by
  simp [save, List.getElem?_set, Ne.symm h]

/-! ## Lemmas on the generated code -/

theorem repr_six (n : Nat) (h1 : 100000 ≤ n) (h2 : n ≤ 999999) :
    Nat.repr n = String.mk [Nat.digitChar (n / 10 / 10 / 10 / 10 / 10 % 10),
      Nat.digitChar (n / 10 / 10 / 10 / 10 % 10), Nat.digitChar (n / 10 / 10 / 10 % 10),
      Nat.digitChar (n / 10 / 10 % 10), Nat.digitChar (n / 10 % 10),
      Nat.digitChar (n % 10)] := by
  have e1 : n / 10 ≠ 0 := by omega
  have e2 : n / 10 / 10 ≠ 0 := by omega
  have e3 : n / 10 / 10 / 10 ≠ 0 := by omega
  have e4 : n / 10 / 10 / 10 / 10 ≠ 0 := by omega
  have e5 : n / 10 / 10 / 10 / 10 / 10 ≠ 0 := by omega
  have e6 : n / 10 / 10 / 10 / 10 / 10 / 10 = 0 := by omega
  obtain ⟨m, rfl⟩ : ∃ m, n = m + 6 := ⟨n - 6, by omega⟩
  simp only [Nat.repr, Nat.toDigits, Nat.toDigitsCore, e1, e2, e3, e4, e5, e6, if_true,
    if_false, List.asString]

theorem digitChar_isDigit : ∀ d : Nat, d < 10 → (Nat.digitChar d).isDigit = true := by
  decide

theorem digitChar_ne_zero : ∀ d : Nat, d < 10 → d ≠ 0 → Nat.digitChar d ≠ '0' := by
  decide

theorem digitChar_inj : ∀ a : Nat, a < 10 → ∀ b : Nat, b < 10 →
    Nat.digitChar a = Nat.digitChar b → a = b := by
  decide

theorem floor_otp (r : ℚ) (h0 : 0 ≤ r) (h1 : r < 1) :
    ∃ n : Nat, 100000 ≤ n ∧ n ≤ 999999 ∧ ⌊100000 + r * 900000⌋ = (n : Int) := by
  have hlo : (100000 : Int) ≤ ⌊100000 + r * 900000⌋ := by
    rw [Int.le_floor]; push_cast; nlinarith
  have hhi : ⌊100000 + r * 900000⌋ < (1000000 : Int) := by
    rw [Int.floor_lt]; push_cast; nlinarith
  refine ⟨(⌊100000 + r * 900000⌋).toNat, ?_, ?_, ?_⟩ <;> omega

theorem toString_natCast (n : Nat) : toString (n : Int) = Nat.repr n := rfl

theorem genOtp_eq_repr (r : ℚ) (h0 : 0 ≤ r) (h1 : r < 1) :
    ∃ n : Nat, 100000 ≤ n ∧ n ≤ 999999 ∧ genOtp r = Nat.repr n := by
  obtain ⟨n, hn1, hn2, hn⟩ := floor_otp r h0 h1
  exact ⟨n, hn1, hn2, by unfold genOtp; rw [hn]; rfl⟩

theorem repr_sixDigits (n : Nat) (h1 : 100000 ≤ n) (h2 : n ≤ 999999) :
    SixDigits (Nat.repr n) := by
  rw [repr_six n h1 h2]
  refine ⟨rfl, ?_⟩
  intro c hc
  simp only [List.mem_cons, List.mem_singleton, List.not_mem_nil, or_false] at hc
  rcases hc with rfl | rfl | rfl | rfl | rfl | rfl <;>
    exact digitChar_isDigit _ (by omega)

theorem toDigitsCore_ne_nil (b : Nat) : ∀ (f n : Nat) (ds : List Char),
    ds ≠ [] → Nat.toDigitsCore b f n ds ≠ [] := by
  intro f
  induction f with
  | zero => intro n ds h; simpa [Nat.toDigitsCore] using h
  | succ f ih =>
    intro n ds h
    simp only [Nat.toDigitsCore]
    split
    · simp
    · exact ih _ _ (by simp)

theorem repr_ne_empty (n : Nat) : Nat.repr n ≠ "" := by
  intro h
  have h' : (Nat.repr n).data = [] := by rw [h]
  simp only [Nat.repr, Nat.toDigits, Nat.toDigitsCore, List.asString] at h'
  split at h'
  · simp at h'
  · exact toDigitsCore_ne_nil _ _ _ _ (by simp) h'

theorem toString_int_ne_empty (z : Int) : toString z ≠ "" := by
  cases z with
  | ofNat n => exact repr_ne_empty n
  | negSucc n =>
    intro h
    have h' : (toString (Int.negSucc n)).data = [] := by rw [h]
    change ("-" ++ Nat.repr (n+1)).data = [] at h'
    simp at h'

theorem genOtp_ne_empty (r : ℚ) : genOtp r ≠ "" := toString_int_ne_empty _

theorem repr_injOn_six (n m : Nat) (hn1 : 100000 ≤ n) (hn2 : n ≤ 999999)
    (hm1 : 100000 ≤ m) (hm2 : m ≤ 999999) (h : Nat.repr n = Nat.repr m) : n = m := by
  rw [repr_six n hn1 hn2, repr_six m hm1 hm2] at h
  have h := congrArg String.data h
  simp only [List.cons.injEq, and_true] at h
  obtain ⟨a5, a4, a3, a2, a1, a0⟩ := h
  have b5 := digitChar_inj _ (by omega) _ (by omega) a5
  have b4 := digitChar_inj _ (by omega) _ (by omega) a4
  have b3 := digitChar_inj _ (by omega) _ (by omega) a3
  have b2 := digitChar_inj _ (by omega) _ (by omega) a2
  have b1 := digitChar_inj _ (by omega) _ (by omega) a1
  have b0 := digitChar_inj _ (by omega) _ (by omega) a0
  omega

theorem genOtp_of_nat (n : Nat) (h1 : 100000 ≤ n) (h2 : n ≤ 999999) :
    ∃ q : ℚ, 0 ≤ q ∧ q < 1 ∧ genOtp q = Nat.repr n := by
  have hn1 : (100000 : ℚ) ≤ n := by exact_mod_cast h1
  have hn2 : (n : ℚ) ≤ 999999 := by exact_mod_cast h2
  refine ⟨((n : ℚ) - 100000) / 900000, ?_, ?_, ?_⟩
  · apply div_nonneg <;> linarith
  · rw [div_lt_one (by norm_num)]; linarith
  · have hval : (100000 : ℚ) + ((n : ℚ) - 100000) / 900000 * 900000 = ((n : Int) : ℚ) := by
      push_cast; field_simp
    unfold genOtp
    rw [hval, Int.floor_intCast]
    rfl

theorem issued_codes_eq :
    {code | ∃ q : ℚ, 0 ≤ q ∧ q < 1 ∧ genOtp q = code} =
      Set.image Nat.repr (Finset.Icc 100000 999999 : Finset Nat) := by
  ext code
  simp only [Set.mem_setOf_eq, Set.mem_image, Finset.coe_Icc, Set.mem_Icc]
  constructor
  · rintro ⟨q, h0, h1, rfl⟩
    obtain ⟨n, hn1, hn2, hn⟩ := genOtp_eq_repr q h0 h1
    exact ⟨n, ⟨hn1, hn2⟩, hn.symm⟩
  · rintro ⟨n, ⟨hn1, hn2⟩, rfl⟩
    exact genOtp_of_nat n hn1 hn2

theorem issued_codes_ncard :
    Set.ncard {code | ∃ q : ℚ, 0 ≤ q ∧ q < 1 ∧ genOtp q = code} = 900000 := by
  rw [issued_codes_eq, Set.ncard_image_of_injOn, Set.ncard_coe_Finset]
  · simp
  · intro n hn m hm h
    simp only [Finset.coe_Icc, Set.mem_Icc] at hn hm
    exact repr_injOn_six n m hn.1 hn.2 hm.1 hm.2 h

theorem genOtp_sixDigits (r : ℚ) (h0 : 0 ≤ r) (h1 : r < 1) : SixDigits (genOtp r) := by
  obtain ⟨n, hn1, hn2, hn⟩ := genOtp_eq_repr r h0 h1
  rw [hn]
  exact repr_sixDigits n hn1 hn2

/-! ## Range of the generated codes -/

/-- C1 (counterexample). A request that presents the stored code at a clock value
equal to the stored expiry (here 1000) is accepted, by `verifyEmail` and by
`resetPassword`, and the user record is changed. -/
theorem accepted_at_expiry :
    sampleUser.verifyOtpExpireAt = (envAt 1000).now ∧
    sampleUser.resetOtpExpireAt = (envAt 1000).now ∧
    (verifyEmail [sampleUser] ⟨some 0, some "123456"⟩ (envAt 1000)).res.success = true ∧
    (verifyEmail [sampleUser] ⟨some 0, some "123456"⟩ (envAt 1000)).store ≠ [sampleUser] ∧
    (resetPassword plainConfig [sampleUser] ⟨some "a@x.com", some "654321", some "pw2"⟩
      (envAt 1000)).res.success = true ∧
    (resetPassword plainConfig [sampleUser] ⟨some "a@x.com", some "654321", some "pw2"⟩
      (envAt 1000)).store ≠ [sampleUser] := by
  decide

/-- C1 (amended). When the presented code is the stored, non-empty code, `verifyEmail`
succeeds exactly when `now ≤ verifyOtpExpireAt` and `resetPassword` exactly when
`now ≤ resetOtpExpireAt`: the request is accepted up to and including the expiry
instant, and from `expireAt + 1` on it is rejected as expired with the collection left
as it was. -/
theorem otp_expiry_boundary (cfg : Config) (s : Store) (id : ObjectId) (user : User)
    (env : Env) (h : s[id]? = some user) :
    (user.verifyOtp ≠ "" →
      ((verifyEmail s ⟨some id, some user.verifyOtp⟩ env).res.success = true ↔
        env.now ≤ user.verifyOtpExpireAt) ∧
      (env.now ≤ user.verifyOtpExpireAt →
        verifyEmail s ⟨some id, some user.verifyOtp⟩ env =
          { store := save s id { user with isAccountVerified := true, verifyOtp := "",
                                           verifyOtpExpireAt := 0 },
            res := { success := true, message := some "Email Verified successfully.",
                     cookie := none },
            mail := none }) ∧
      (user.verifyOtpExpireAt < env.now →
        verifyEmail s ⟨some id, some user.verifyOtp⟩ env =
          { store := s, res := failure "OTP Expires.", mail := none })) ∧
    (∀ newPassword : String, user.resetOtp ≠ "" → user.email ≠ "" → newPassword ≠ "" →
      findOne s user.email = some (id, user) →
      ((resetPassword cfg s ⟨some user.email, some user.resetOtp, some newPassword⟩
          env).res.success = true ↔ env.now ≤ user.resetOtpExpireAt) ∧
      (env.now ≤ user.resetOtpExpireAt →
        resetPassword cfg s ⟨some user.email, some user.resetOtp, some newPassword⟩ env =
          { store := save s id { user with password := cfg.hash newPassword 10 env.salt,
                                           resetOtp := "", resetOtpExpireAt := 0 },
            res := { success := true,
                     message := some "Password has been Reset Successfully.",
                     cookie := none },
            mail := none }) ∧
      (user.resetOtpExpireAt < env.now →
        resetPassword cfg s ⟨some user.email, some user.resetOtp, some newPassword⟩ env =
          { store := s, res := failure "OTP Expired.", mail := none })) := by
  constructor
  · intro hcode
    by_cases hexp : user.verifyOtpExpireAt < env.now
    · have hle : ¬ env.now ≤ user.verifyOtpExpireAt := by omega
      simp [verifyEmail, present, findById, h, hcode, hexp, hle, failure]
    · have hle : env.now ≤ user.verifyOtpExpireAt := by omega
      simp [verifyEmail, present, findById, h, hcode, hexp, hle]
  · intro newPassword hcode hemail hpw hfind
    by_cases hexp : user.resetOtpExpireAt < env.now
    · have hle : ¬ env.now ≤ user.resetOtpExpireAt := by omega
      simp [resetPassword, present, hfind, hcode, hemail, hpw, hexp, hle, failure]
    · have hle : env.now ≤ user.resetOtpExpireAt := by omega
      simp [resetPassword, present, hfind, hcode, hemail, hpw, hexp, hle]

theorem otp_expiry_boundary_witness :
    ((verifyEmail [sampleUser] ⟨some 0, some sampleUser.verifyOtp⟩ (envAt 1001)).res.success
        = true ↔ (envAt 1001).now ≤ sampleUser.verifyOtpExpireAt) ∧
    (verifyEmail [sampleUser] ⟨some 0, some sampleUser.verifyOtp⟩ (envAt 1001) =
        { store := [sampleUser], res := failure "OTP Expires.", mail := none }) ∧
    (resetPassword plainConfig [sampleUser]
        ⟨some sampleUser.email, some sampleUser.resetOtp, some "pw2"⟩ (envAt 1001) =
        { store := [sampleUser], res := failure "OTP Expired.", mail := none }) :=
  have key := otp_expiry_boundary plainConfig [sampleUser] 0 sampleUser (envAt 1001) rfl
  ⟨(key.1 (by decide)).1, (key.1 (by decide)).2.2 (by decide),
    (key.2 "pw2" (by decide) (by decide) (by decide) (by decide)).2.2 (by decide)⟩

/-! ## Order of the checks -/

/-- C3. For an existing user and a presented code that is not empty, when the stored
code is empty or differs from the presented one, `verifyEmail` (and `resetPassword`,
given a new password that is not empty) answers exactly success false with message
Invalid OTP, whatever the stored expiry and the clock are, and leaves the collection
as it was; and the expired answer is only given to a request whose code is the stored,
non-empty code. -/
theorem invalid_code_rejected (cfg : Config) (s : Store) (id : ObjectId) (user : User)
    (otp : String) (env : Env) (h : s[id]? = some user) (hotp : otp ≠ "") :
    ((user.verifyOtp = "" ∨ user.verifyOtp ≠ otp) →
      verifyEmail s ⟨some id, some otp⟩ env =
        { store := s, res := failure "Invalid OTP.", mail := none }) ∧
    (∀ newPassword : String, newPassword ≠ "" → user.email ≠ "" →
      findOne s user.email = some (id, user) →
      (user.resetOtp = "" ∨ user.resetOtp ≠ otp) →
      resetPassword cfg s ⟨some user.email, some otp, some newPassword⟩ env =
        { store := s, res := failure "Invalid OTP.", mail := none }) ∧
    (∀ body : VerifyEmailBody, (verifyEmail s body env).res = failure "OTP Expires." →
      ∃ id' u, body.userId = some id' ∧ s[id']? = some u ∧ u.verifyOtp ≠ "" ∧
        body.otp = some u.verifyOtp) ∧
    (∀ body : ResetPasswordBody,
      (resetPassword cfg s body env).res = failure "OTP Expired." →
      ∃ id' u email, body.email = some email ∧ findOne s email = some (id', u) ∧
        u.resetOtp ≠ "" ∧ body.otp = some u.resetOtp) := by
  refine ⟨?_, ?_, ?_, ?_⟩
  · intro hbad
    have hbad' : user.verifyOtp = "" ∨ ¬ user.verifyOtp = otp := hbad
    simp [verifyEmail, present, findById, h, hotp, hbad']
  · intro newPassword hpw hemail hfind hbad
    have hbad' : user.resetOtp = "" ∨ ¬ user.resetOtp = otp := hbad
    simp [resetPassword, present, hfind, hotp, hemail, hpw, hbad']
  · intro body hres
    obtain ⟨uid, o⟩ := body
    cases uid with
    | none => simp [verifyEmail, failure] at hres
    | some id' =>
      cases o with
      | none => simp [verifyEmail, present, failure] at hres
      | some code =>
        by_cases hc : code = ""
        · simp [verifyEmail, present, hc, failure] at hres
        · cases hu : s[id']? with
          | none => simp [verifyEmail, present, hc, findById, hu, failure] at hres
          | some u =>
            by_cases hbad : u.verifyOtp = "" ∨ ¬ u.verifyOtp = code
            · simp [verifyEmail, present, hc, findById, hu, hbad, failure] at hres
            · push_neg at hbad
              exact ⟨id', u, rfl, hu, hbad.1, by simp [hbad.2]⟩
  · intro body hres
    obtain ⟨em, o, np⟩ := body
    cases hem : present em with
    | none => simp [resetPassword, hem, failure] at hres
    | some email =>
      cases ho : present o with
      | none => simp [resetPassword, hem, ho, failure] at hres
      | some code =>
        cases hnp : present np with
        | none => simp [resetPassword, hem, ho, hnp, failure] at hres
        | some newPassword =>
          have hem' : em = some email := by
            cases em with
            | none => simp [present] at hem
            | some x => by_cases hx : x = "" <;> simp_all [present]
          have ho' : o = some code := by
            cases o with
            | none => simp [present] at ho
            | some x => by_cases hx : x = "" <;> simp_all [present]
          cases hf : findOne s email with
          | none => simp [resetPassword, hem, ho, hnp, hf, failure] at hres
          | some p =>
            obtain ⟨id', u⟩ := p
            by_cases hbad : u.resetOtp = "" ∨ ¬ u.resetOtp = code
            · simp [resetPassword, hem, ho, hnp, hf, hbad, failure] at hres
            · push_neg at hbad
              exact ⟨id', u, email, hem', hf, hbad.1, by simp [ho', hbad.2]⟩

theorem invalid_code_rejected_witness :
    (verifyEmail [sampleUser] ⟨some 0, some "000000"⟩ (envAt 2000) =
        { store := [sampleUser], res := failure "Invalid OTP.", mail := none }) ∧
    (resetPassword plainConfig [sampleUser] ⟨some sampleUser.email, some "000000", some "pw2"⟩
        (envAt 2000) =
        { store := [sampleUser], res := failure "Invalid OTP.", mail := none }) :=
  have key := invalid_code_rejected plainConfig [sampleUser] 0 sampleUser "000000"
    (envAt 2000) rfl (by decide)
  ⟨key.1 (by decide), key.2.1 "pw2" (by decide) (by decide) (by decide) (by decide)⟩

/-! ## Issuing a reset code -/

/-- C2. For an existing unverified user, `sendVerifyOtp` at time `t` followed by
`verifyEmail` at a time `t'` with `t ≤ t' < t + 24h` and the code that was stored
answers success true and leaves the user verified with `verifyOtp` empty and
`verifyOtpExpireAt` 0; a second `verifyEmail` with the same code, at any time, answers
Invalid OTP and changes nothing. -/
theorem verify_roundtrip (cfg : Config) (s : Store) (id : ObjectId) (user : User)
    (env1 env2 env3 : Env) (h : s[id]? = some user)
    (hunv : user.isAccountVerified = false)
    (ht : env1.now ≤ env2.now) (ht' : env2.now < env1.now + 24 * 60 * 60 * 1000) :
    ∃ code u1, (sendVerifyOtp cfg s ⟨some id⟩ env1).store[id]? = some u1 ∧
      u1.verifyOtp = code ∧
      (verifyEmail (sendVerifyOtp cfg s ⟨some id⟩ env1).store ⟨some id, some code⟩ env2).res =
        { success := true, message := some "Email Verified successfully.",
          cookie := none } ∧
      (verifyEmail (sendVerifyOtp cfg s ⟨some id⟩ env1).store ⟨some id, some code⟩
          env2).store[id]? =
        some { user with isAccountVerified := true, verifyOtp := "",
                         verifyOtpExpireAt := 0 } ∧
      verifyEmail
          (verifyEmail (sendVerifyOtp cfg s ⟨some id⟩ env1).store ⟨some id, some code⟩
            env2).store
          ⟨some id, some code⟩ env3 =
        { store := (verifyEmail (sendVerifyOtp cfg s ⟨some id⟩ env1).store
            ⟨some id, some code⟩ env2).store,
          res := failure "Invalid OTP.", mail := none } := by
  have hne := genOtp_ne_empty env1.random
  have hstore : (sendVerifyOtp cfg s ⟨some id⟩ env1).store =
      save s id { user with verifyOtp := genOtp env1.random,
                            verifyOtpExpireAt := env1.now + 24 * 60 * 60 * 1000 } := by
    cases hm : env1.mailError <;> simp [sendVerifyOtp, findById, h, hunv, hm]
  have hget1 : (save s id { user with verifyOtp := genOtp env1.random,
                                      verifyOtpExpireAt := env1.now + 24 * 60 * 60 * 1000 })[id]? =
      some { user with verifyOtp := genOtp env1.random,
                       verifyOtpExpireAt := env1.now + 24 * 60 * 60 * 1000 } :=
    getElem?_save_self h
  have hexp : ¬ (env1.now + 24 * 60 * 60 * 1000 < env2.now) := by omega
  have hv2 : verifyEmail (sendVerifyOtp cfg s ⟨some id⟩ env1).store
      ⟨some id, some (genOtp env1.random)⟩ env2 =
      { store := save (sendVerifyOtp cfg s ⟨some id⟩ env1).store id
          { user with isAccountVerified := true, verifyOtp := "",
                      verifyOtpExpireAt := 0 },
        res := { success := true, message := some "Email Verified successfully.",
                 cookie := none },
        mail := none } := by
    rw [hstore]
    simp only [verifyEmail, present, findById, hne, if_false, hget1]
    simp only [hne, false_or, not_true_eq_false, if_false]
    rw [if_neg hexp]
    simp
  have hget2 : (save (sendVerifyOtp cfg s ⟨some id⟩ env1).store id
      { user with isAccountVerified := true, verifyOtp := "",
                  verifyOtpExpireAt := 0 })[id]? =
      some { user with isAccountVerified := true, verifyOtp := "",
                       verifyOtpExpireAt := 0 } := by
    rw [hstore]
    exact getElem?_save_self hget1
  refine ⟨genOtp env1.random, _, hstore ▸ hget1, rfl, ?_, ?_, ?_⟩
  · rw [hv2]
  · rw [hv2]; exact hget2
  · rw [hv2]
    simp [verifyEmail, present, findById, hget2, hne]

theorem verify_roundtrip_witness :
    ∃ code u1, (sendVerifyOtp plainConfig [sampleUser] ⟨some 0⟩ (envAt 10)).store[0]? = some u1 ∧
      u1.verifyOtp = code ∧
      (verifyEmail (sendVerifyOtp plainConfig [sampleUser] ⟨some 0⟩ (envAt 10)).store
          ⟨some 0, some code⟩ (envAt 20)).res =
        { success := true, message := some "Email Verified successfully.",
          cookie := none } ∧
      (verifyEmail (sendVerifyOtp plainConfig [sampleUser] ⟨some 0⟩ (envAt 10)).store
          ⟨some 0, some code⟩ (envAt 20)).store[0]? =
        some { sampleUser with isAccountVerified := true, verifyOtp := "",
                               verifyOtpExpireAt := 0 } ∧
      verifyEmail
          (verifyEmail (sendVerifyOtp plainConfig [sampleUser] ⟨some 0⟩ (envAt 10)).store
            ⟨some 0, some code⟩ (envAt 20)).store
          ⟨some 0, some code⟩ (envAt 30) =
        { store := (verifyEmail (sendVerifyOtp plainConfig [sampleUser] ⟨some 0⟩
            (envAt 10)).store ⟨some 0, some code⟩ (envAt 20)).store,
          res := failure "Invalid OTP.", mail := none } :=
  verify_roundtrip plainConfig [sampleUser] 0 sampleUser (envAt 10) (envAt 20) (envAt 30)
    rfl rfl (by decide) (by decide)

/-! ## Login -/

theorem resetPassword_success {cfg : Config} {s : Store} {email otp pNew : String}
    {id : ObjectId} {user : User} {env : Env}
    (hfind : findOne s email = some (id, user))
    (hsucc : (resetPassword cfg s ⟨some email, some otp, some pNew⟩ env).res.success = true) :
    email ≠ "" ∧ pNew ≠ "" ∧ otp ≠ "" ∧ user.resetOtp = otp ∧
      env.now ≤ user.resetOtpExpireAt ∧
      (resetPassword cfg s ⟨some email, some otp, some pNew⟩ env).store =
        save s id { user with password := cfg.hash pNew 10 env.salt, resetOtp := "",
                              resetOtpExpireAt := 0 } := by
  by_cases hemail : email = ""
  · simp [resetPassword, present, hemail, failure] at hsucc
  by_cases hotp : otp = ""
  · simp [resetPassword, present, hemail, hotp, failure] at hsucc
  by_cases hnew : pNew = ""
  · simp [resetPassword, present, hemail, hotp, hnew, failure] at hsucc
  by_cases hbad : user.resetOtp = "" ∨ ¬ user.resetOtp = otp
  · simp [resetPassword, present, hemail, hotp, hnew, hfind, hbad, failure] at hsucc
  by_cases hexp : user.resetOtpExpireAt < env.now
  · simp [resetPassword, present, hemail, hotp, hnew, hfind, hbad, hexp, failure] at hsucc
  push_neg at hbad
  refine ⟨hemail, hnew, hotp, hbad.2, by omega, ?_⟩
  simp [resetPassword, present, hemail, hotp, hnew, hfind, hbad.1, hbad.2, hexp]

/-- C4 (counterexample). With a hash for which `compare p (hash q)` holds exactly when
`p = q`, a reset whose new password equals the old one (here pw1) succeeds and the old
password still logs in afterwards. -/
theorem old_password_still_valid :
    (∀ p q rounds salt, plainConfig.compare p (plainConfig.hash q rounds salt) = true ↔ p = q) ∧
    sampleUser.password = plainConfig.hash "pw1" 10 0 ∧
    (resetPassword plainConfig [sampleUser] ⟨some "a@x.com", some "654321", some "pw1"⟩
      (envAt 500)).res.success = true ∧
    (login plainConfig
      (resetPassword plainConfig [sampleUser] ⟨some "a@x.com", some "654321", some "pw1"⟩
        (envAt 500)).store
      ⟨some "a@x.com", some "pw1"⟩ (envAt 600)).res.success = true := by
  refine ⟨?_, by decide, by decide, by decide⟩
  intro p q rounds salt
  simp [plainConfig]

/-- C4 (amended). Modelling bcrypt so that `compare p (hash q)` holds exactly when
`p = q`: for an existing user with old password `pOld` and a new password `pNew`
different from `pOld`, after every successful `resetPassword` a login with `pNew`
answers success true, a login with `pOld` answers success false, and the user has
`resetOtp` empty and `resetOtpExpireAt` 0. -/
theorem reset_then_login (cfg : Config) (s : Store) (email otp pOld pNew : String)
    (salt0 : Nat) (id : ObjectId) (user : User) (env env1 : Env)
    (hbc : ∀ p q rounds salt, cfg.compare p (cfg.hash q rounds salt) = true ↔ p = q)
    (hfind : findOne s email = some (id, user))
    (_hold : user.password = cfg.hash pOld 10 salt0)
    (hne : pOld ≠ pNew)
    (hsucc : (resetPassword cfg s ⟨some email, some otp, some pNew⟩ env).res.success = true) :
    (login cfg (resetPassword cfg s ⟨some email, some otp, some pNew⟩ env).store
      ⟨some email, some pNew⟩ env1).res.success = true ∧
    (login cfg (resetPassword cfg s ⟨some email, some otp, some pNew⟩ env).store
      ⟨some email, some pOld⟩ env1).res.success = false ∧
    ∃ u, (resetPassword cfg s ⟨some email, some otp, some pNew⟩ env).store[id]? = some u ∧
      u.resetOtp = "" ∧ u.resetOtpExpireAt = 0 ∧
      u.password = cfg.hash pNew 10 env.salt := by
  obtain ⟨hemail, hnew, _, _, _, hstore⟩ := resetPassword_success hfind hsucc
  have hsp := findOne_spec hfind
  have hfind' : findOne (save s id { user with password := cfg.hash pNew 10 env.salt,
                                               resetOtp := "", resetOtpExpireAt := 0 }) email =
      some (id, { user with password := cfg.hash pNew 10 env.salt, resetOtp := "",
                            resetOtpExpireAt := 0 }) :=
    findOne_save hfind hsp.2.1
  rw [hstore]
  refine ⟨?_, ?_, ⟨_, getElem?_save_self hsp.1, rfl, rfl, rfl⟩⟩
  · have hc : cfg.compare pNew (cfg.hash pNew 10 env.salt) = true := (hbc _ _ _ _).2 rfl
    simp [login, present, hemail, hnew, hfind', hc]
  · by_cases hp : pOld = ""
    · simp [login, present, hp, failure]
    · have hc : cfg.compare pOld (cfg.hash pNew 10 env.salt) = false := by
        cases hcc : cfg.compare pOld (cfg.hash pNew 10 env.salt) with
        | false => rfl
        | true => exact absurd ((hbc _ _ _ _).1 hcc) hne
      simp [login, present, hemail, hp, hfind', hc, failure]

theorem reset_then_login_witness :
    (login plainConfig
      (resetPassword plainConfig [sampleUser] ⟨some "a@x.com", some "654321", some "pw2"⟩
        (envAt 500)).store
      ⟨some "a@x.com", some "pw2"⟩ (envAt 600)).res.success = true ∧
    (login plainConfig
      (resetPassword plainConfig [sampleUser] ⟨some "a@x.com", some "654321", some "pw2"⟩
        (envAt 500)).store
      ⟨some "a@x.com", some "pw1"⟩ (envAt 600)).res.success = false ∧
    ∃ u, (resetPassword plainConfig [sampleUser]
        ⟨some "a@x.com", some "654321", some "pw2"⟩ (envAt 500)).store[0]? = some u ∧
      u.resetOtp = "" ∧ u.resetOtpExpireAt = 0 ∧
      u.password = plainConfig.hash "pw2" 10 (envAt 500).salt :=
  reset_then_login plainConfig [sampleUser] "a@x.com" "654321" "pw1" "pw2" 0 0 sampleUser
    (envAt 500) (envAt 600) (by intro p q rounds salt; simp [plainConfig]) (by decide)
    (by decide) (by decide) (by decide)

/-! ## Registration -/

theorem register_store_cases (cfg : Config) (s : Store) (body : RegisterBody) (env : Env) :
    (register cfg s body env).store = s ∨
      ∃ name email hashed, findOne s email = none ∧
        (register cfg s body env).store = insert s (newUser name email hashed) := by
  unfold register
  split
  · next name email password _ _ _ =>
    split
    · exact Or.inl rfl
    · next hf =>
      right
      refine ⟨name, email, cfg.hash password 10 env.salt, hf, ?_⟩
      cases env.mailError <;> rfl
  · exact Or.inl rfl

theorem register_unique (cfg : Config) (s : Store) (body : RegisterBody) (env : Env)
    (h : UniqueEmails s) : UniqueEmails (register cfg s body env).store := by
  rcases register_store_cases cfg s body env with hs | ⟨name, email, hashed, hf, hs⟩
  · rw [hs]; exact h
  · rw [hs]
    unfold UniqueEmails insert at *
    rw [List.map_append, List.nodup_append]
    refine ⟨h, by simp, ?_⟩
    intro a ha hb
    simp only [List.map_cons, List.map_nil, List.mem_singleton, newUser] at hb
    obtain ⟨u, hu, rfl⟩ := List.mem_map.1 ha
    exact findOne_eq_none.1 hf u hu hb

theorem registerAll_unique (cfg : Config) (reqs : List (RegisterBody × Env)) :
    ∀ s : Store, UniqueEmails s → UniqueEmails (registerAll cfg s reqs) := by
  induction reqs with
  | nil => intro s h; exact h
  | cons q qs ih =>
    intro s h
    exact ih _ (register_unique cfg s q.1 q.2 h)

/-- C6. When the collection already holds a user with the email of the request (an
email being a non-empty string) and the name and password are not empty, `register`
answers success false with the message User already exsist., sets no cookie, hands no
mail to the transporter and leaves the collection as it was; hence a collection in
which each email identifies at most one user keeps that property after any sequence of
`register` requests. -/
theorem register_duplicate (cfg : Config) (s : Store) (name email password : String)
    (env : Env) (hname : name ≠ "") (hemail : email ≠ "") (hpw : password ≠ "")
    (hdup : ∃ u ∈ s, u.email = email) :
    register cfg s ⟨some email, some name, some password⟩ env =
      { store := s,
        res := { success := false, message := some "User already exsist.", cookie := none },
        mail := none } ∧
    ∀ (s0 : Store) (reqs : List (RegisterBody × Env)),
      UniqueEmails s0 → UniqueEmails (registerAll cfg s0 reqs) := by
  refine ⟨?_, fun s0 reqs => registerAll_unique cfg reqs s0⟩
  cases hf : findOne s email with
  | none =>
    obtain ⟨u, hu, he⟩ := hdup
    exact absurd he (findOne_eq_none.1 hf u hu)
  | some p => simp [register, present, hname, hemail, hpw, hf, failure]

theorem register_duplicate_witness :
    register plainConfig [sampleUser] ⟨some "a@x.com", some "B", some "pw9"⟩ (envAt 3) =
      { store := [sampleUser],
        res := { success := false, message := some "User already exsist.", cookie := none },
        mail := none } ∧
    ∀ (s0 : Store) (reqs : List (RegisterBody × Env)),
      UniqueEmails s0 → UniqueEmails (registerAll plainConfig s0 reqs) :=
  register_duplicate plainConfig [sampleUser] "B" "a@x.com" "pw9" (envAt 3) (by decide)
    (by decide) (by decide) ⟨sampleUser, by simp, by decide⟩

/-- C10. For a valid `register` request with an email that no stored user has, when
saving succeeds and `transporter.sendMail` throws with message `m`, the answer is
success false with message `m`, although the session cookie has been set and the new
user is in the collection; the same request sent again is answered with
User already exsist. and changes nothing. -/
theorem register_mail_failure (cfg : Config) (s : Store) (name email password m : String)
    (env : Env) (hname : name ≠ "") (hemail : email ≠ "") (hpw : password ≠ "")
    (hfresh : ∀ u ∈ s, u.email ≠ email) (hmail : env.mailError = some m) :
    (register cfg s ⟨some email, some name, some password⟩ env).res =
      { success := false, message := some m,
        cookie := some (tokenCookie cfg (cfg.sign s.length env.now)) } ∧
    (register cfg s ⟨some email, some name, some password⟩ env).store =
      s ++ [newUser name email (cfg.hash password 10 env.salt)] ∧
    ∀ env1 : Env,
      register cfg (register cfg s ⟨some email, some name, some password⟩ env).store
          ⟨some email, some name, some password⟩ env1 =
        { store := (register cfg s ⟨some email, some name, some password⟩ env).store,
          res := failure "User already exsist.", mail := none } := by
  have hf : findOne s email = none := findOne_eq_none.2 hfresh
  have hstore : (register cfg s ⟨some email, some name, some password⟩ env).store =
      insert s (newUser name email (cfg.hash password 10 env.salt)) := by
    simp [register, present, hname, hemail, hpw, hf, hmail]
  refine ⟨?_, hstore, ?_⟩
  · simp [register, present, hname, hemail, hpw, hf, hmail]
  · intro env1
    rw [hstore]
    have hf' : findOne (insert s (newUser name email (cfg.hash password 10 env.salt))) email =
        some (s.length, newUser name email (cfg.hash password 10 env.salt)) :=
      findOne_insert hf rfl
    simp [register, present, hname, hemail, hpw, hf']

theorem register_mail_failure_witness :
    (register plainConfig [sampleUser] ⟨some "b@x.com", some "B", some "pw9"⟩
        { now := 3, random := 0, salt := 0, mailError := some "ECONNREFUSED" }).res =
      { success := false, message := some "ECONNREFUSED",
        cookie := some (tokenCookie plainConfig (plainConfig.sign 1 3)) } ∧
    (register plainConfig [sampleUser] ⟨some "b@x.com", some "B", some "pw9"⟩
        { now := 3, random := 0, salt := 0, mailError := some "ECONNREFUSED" }).store =
      [sampleUser] ++ [newUser "B" "b@x.com" (plainConfig.hash "pw9" 10 0)] :=
  have key := register_mail_failure plainConfig [sampleUser] "B" "b@x.com" "pw9"
    "ECONNREFUSED" { now := 3, random := 0, salt := 0, mailError := some "ECONNREFUSED" }
    (by decide) (by decide) (by decide) (by decide) rfl
  ⟨key.1, key.2.1⟩

/-! ## Invariant of the passcode slots -/

theorem fresh_slotInv {u : User} (h : Fresh u) : SlotInv u := by
  obtain ⟨h1, h2, h3, h4⟩ := h
  simp [SlotInv, h1, h2, h3, h4]

theorem genOtp_length (r : ℚ) (h0 : 0 ≤ r) (h1 : r < 1) : (genOtp r).length = 6 :=
  (genOtp_sixDigits r h0 h1).1

theorem save_slotInv {s : Store} {id j : Nat} {user user' : User}
    (hinv : ∃ u, s[id]? = some u ∧ SlotInv u) (hj : s[j]? = some user)
    (hstep : SlotInv user → SlotInv user') :
    ∃ u, (save s j user')[id]? = some u ∧ SlotInv u := by
  obtain ⟨u, hu, hi⟩ := hinv
  by_cases hji : id = j
  · subst hji
    rw [hu] at hj
    cases hj
    exact ⟨user', getElem?_save_self hu, hstep hi⟩
  · exact ⟨u, by rw [getElem?_save_ne hji]; exact hu, hi⟩

theorem sendVerifyOtp_store_cases (cfg : Config) (s : Store) (body : SendVerifyOtpBody)
    (env : Env) :
    (sendVerifyOtp cfg s body env).store = s ∨
      ∃ j user, s[j]? = some user ∧
        (sendVerifyOtp cfg s body env).store =
          save s j { user with verifyOtp := genOtp env.random,
                               verifyOtpExpireAt := env.now + 24 * 60 * 60 * 1000 } := by
  unfold sendVerifyOtp
  split
  · next id user hid hu =>
    split
    · exact Or.inl rfl
    · right
      refine ⟨id, user, ?_, ?_⟩
      · simpa [hid, findById] using hu
      · cases env.mailError <;> rfl
  · exact Or.inl rfl

theorem verifyEmail_store_cases (s : Store) (body : VerifyEmailBody) (env : Env) :
    (verifyEmail s body env).store = s ∨
      ∃ j user, s[j]? = some user ∧
        (verifyEmail s body env).store =
          save s j { user with isAccountVerified := true, verifyOtp := "",
                               verifyOtpExpireAt := 0 } := by
  unfold verifyEmail
  split
  · next id otp _ _ =>
    split
    · exact Or.inl rfl
    · next user hu =>
      split
      · exact Or.inl rfl
      · split
        · exact Or.inl rfl
        · exact Or.inr ⟨id, user, by simpa [findById] using hu, rfl⟩
  · exact Or.inl rfl

theorem sendResetOtp_store_cases (cfg : Config) (s : Store) (body : SendResetOtpBody)
    (env : Env) :
    (sendResetOtp cfg s body env).store = s ∨
      ∃ j user, s[j]? = some user ∧
        (sendResetOtp cfg s body env).store =
          save s j { user with resetOtp := genOtp env.random,
                               resetOtpExpireAt := env.now + 15 * 60 * 1000 } := by
  unfold sendResetOtp
  split
  · exact Or.inl rfl
  · split
    · exact Or.inl rfl
    · next id user hf =>
      right
      refine ⟨id, user, (findOne_spec hf).1, ?_⟩
      cases env.mailError <;> rfl

theorem resetPassword_store_cases (cfg : Config) (s : Store) (body : ResetPasswordBody)
    (env : Env) :
    (resetPassword cfg s body env).store = s ∨
      ∃ j user hashed, s[j]? = some user ∧
        (resetPassword cfg s body env).store =
          save s j { user with password := hashed, resetOtp := "",
                               resetOtpExpireAt := 0 } := by
  unfold resetPassword
  split
  · next email otp newPassword _ _ _ =>
    split
    · exact Or.inl rfl
    · next id user hf =>
      split
      · exact Or.inl rfl
      · split
        · exact Or.inl rfl
        · exact Or.inr ⟨id, user, cfg.hash newPassword 10 env.salt, (findOne_spec hf).1, rfl⟩
  · exact Or.inl rfl

theorem step_slotInv (cfg : Config) (s : Store) (id : ObjectId) (a : Action)
    (hv : a.env.valid) (hinv : ∃ u, s[id]? = some u ∧ SlotInv u) :
    ∃ u, (step cfg s a)[id]? = some u ∧ SlotInv u := by
  obtain ⟨hnow, hr0, hr1⟩ := hv
  cases a with
  | sendVerifyOtp body env =>
    simp only [Action.env] at hnow hr0 hr1
    rcases sendVerifyOtp_store_cases cfg s body env with hs | ⟨j, user, hj, hs⟩
    · simp only [step, hs]; exact hinv
    · simp only [step, hs]
      refine save_slotInv hinv hj ?_
      rintro ⟨_, _, h3, h4⟩
      refine ⟨?_, fun _ => genOtp_length _ hr0 hr1, h3, h4⟩
      have hne := genOtp_ne_empty env.random
      constructor
      · intro hc; exact absurd hc hne
      · intro hc
        simp only at hc
        omega
  | verifyEmail body env =>
    rcases verifyEmail_store_cases s body env with hs | ⟨j, user, hj, hs⟩
    · simp only [step, hs]; exact hinv
    · simp only [step, hs]
      refine save_slotInv hinv hj ?_
      rintro ⟨_, _, h3, h4⟩
      exact ⟨by simp, by simp, h3, h4⟩
  | sendResetOtp body env =>
    simp only [Action.env] at hnow hr0 hr1
    rcases sendResetOtp_store_cases cfg s body env with hs | ⟨j, user, hj, hs⟩
    · simp only [step, hs]; exact hinv
    · simp only [step, hs]
      refine save_slotInv hinv hj ?_
      rintro ⟨h1, h2, _, _⟩
      refine ⟨h1, h2, ?_, fun _ => genOtp_length _ hr0 hr1⟩
      have hne := genOtp_ne_empty env.random
      constructor
      · intro hc; exact absurd hc hne
      · intro hc
        simp only at hc
        omega
  | resetPassword body env =>
    rcases resetPassword_store_cases cfg s body env with hs | ⟨j, user, hashed, hj, hs⟩
    · simp only [step, hs]; exact hinv
    · simp only [step, hs]
      refine save_slotInv hinv hj ?_
      rintro ⟨h1, h2, _, _⟩
      exact ⟨h1, h2, by simp, by simp⟩

theorem run_slotInv (cfg : Config) (id : ObjectId) (acts : List Action) :
    ∀ s : Store, (∀ a ∈ acts, a.env.valid) → (∃ u, s[id]? = some u ∧ SlotInv u) →
      ∃ u, (run cfg s acts)[id]? = some u ∧ SlotInv u := by
  induction acts with
  | nil => intro s _ h; exact h
  | cons a as ih =>
    intro s hv h
    exact ih (step cfg s a) (fun b hb => hv b (List.mem_cons_of_mem _ hb))
      (step_slotInv cfg s id a (hv a (List.mem_cons_self _ _)) h)

end AuthController
